import Mathlib

/-!
Verification of the k0rdent/istio operator core logic: a shallow embedding of
the lifecycle reconciler, certificate manager, remote-secret (credential)
builder, propagation manager and rotation scheduler, together with theorems
settling the specification claims.

Conventions:
* Kubernetes objects are records; the backing store is a record of lists.
* Go errors are `Except String`; `nil` error is `Except.ok ()`.
* External reads (region lookup, kubeconfig fetch, remote-cluster calls) are
  supplied as explicit environment parameters, since they do not touch the
  management-cluster store.
* Machine integers (the FNV-1a hash state) are `Nat` reduced `% 2 ^ 32`.
-/

namespace K0rdentIstio

/-! ## Constants (internal/controller/istio, internal/controller/utils) -/

/-- `istio.IstioRoleLabel` -/
def IstioRoleLabel : String := "k0rdent.mirantis.com/istio-role"

/-- `istio.IstioRoleLabelExpectedValues`: `child` is deprecated but still supported. -/
def IstioRoleLabelExpectedValues : List String := ["member", "child"]

/-- `utils.IstioMeshLabel` -/
def IstioMeshLabel : String := "k0rdent.mirantis.com/istio-mesh"

/-- `kcmv1beta1.ReadyCondition` -/
def ReadyCondition : String := "Ready"

/-- `kcmv1beta1.CAPIClusterSummaryCondition` -/
def CAPIClusterSummaryCondition : String := "CAPIClusterSummary"

/-! ## Data model -/

/-- A `metav1.Condition`: only the fields the operator reads. -/
structure Condition where
  type : String
  status : String
  deriving Repr, DecidableEq

/-- A `kcmv1beta1.ClusterDeployment`: the fields the operator core reads. -/
structure ClusterDeployment where
  name : String
  nspace : String
  labels : List (String × String)
  template : String
  conditions : List Condition
  deriving Repr, DecidableEq

/-- Map lookup over an association list, mirroring Go `map[string]string` access. -/
def lookupLabel (labels : List (String × String)) (key : String) : Option String :=
  (labels.find? (fun kv => kv.1 = key)).map (fun kv => kv.2)

/-- `utils.IsAdopted`: `strings.HasPrefix(cluster.Spec.Template, "adopted-")`,
expressed over the character lists so that it evaluates in the kernel. -/
def IsAdopted (cd : ClusterDeployment) : Bool :=
  "adopted-".data.isPrefixOf cd.template.data

/-- `utils.IsInMesh`: the mesh-isolation label is present (any value). -/
def IsInMesh (cd : ClusterDeployment) : Bool :=
  (lookupLabel cd.labels IstioMeshLabel).isSome

/-- `utils.IsClusterDeploymentReady`: scans the conditions list and flags
readiness when a condition of the expected type is present; for adopted
clusters the expected type is `Ready`, otherwise `CAPIClusterSummary`.
The `Status` of the condition is never consulted. -/
def IsClusterDeploymentReady (cd : ClusterDeployment) : Bool :=
  cd.conditions.foldl
    (fun readiness condition =>
      if IsAdopted cd then
        if condition.type = ReadyCondition then true else readiness
      else
        if condition.type = CAPIClusterSummaryCondition then true else readiness)
    false

/-! ## Naming utility (`utils.GetNameHash`, `hash/fnv` New32a) -/

/-- One step of FNV-1a-32: xor the byte in, multiply by the prime, mod 2^32. -/
def fnv1aStep (h b : Nat) : Nat :=
  ((h ^^^ b) * 16777619) % 2 ^ 32

/-- The UTF-8 bytes of a string, as Go `[]byte(name)`. -/
def utf8Bytes (s : String) : List Nat :=
  s.data.flatMap (fun c => (String.utf8EncodeChar c).map UInt8.toNat)

/-- FNV-1a 32-bit hash of the UTF-8 bytes of a string
(`fnv.New32a`; `h.Write([]byte(name)); h.Sum32()`). -/
def fnv1a32 (s : String) : Nat :=
  (utf8Bytes s).foldl fnv1aStep 2166136261

/-- Lowercase hexadecimal rendering of a `Nat`, as Go `%x`. -/
def hexStr (n : Nat) : String :=
  String.mk (Nat.toDigits 16 n)

/-- `utils.GetNameHash`: `fmt.Sprintf("%s-%x", pfx, h.Sum32())`. -/
def GetNameHash (pfx name : String) : String :=
  pfx ++ "-" ++ hexStr (fnv1a32 name)

/-- `remotesecret.GetRemoteSecretName`: hash of `{namespace}-{clusterName}`
under the `istio-remote-secret` purpose string. -/
def GetRemoteSecretName (clusterName nspace : String) : String :=
  GetNameHash "istio-remote-secret" (nspace ++ "-" ++ clusterName)

/-- `multicluster.GetMultiClusterServiceName`: hash of `{namespace}-{clusterName}`
under the `remote-secret-propagation` purpose string. -/
def GetMultiClusterServiceName (clusterName nspace : String) : String :=
  GetNameHash "remote-secret-propagation" (nspace ++ "-" ++ clusterName)

/-- `cert.GetCertName`: `{releaseName}-{namespace}-{clusterName}-ca`.
`istio.IstioReleaseName` is a process-global set at start; it is passed
explicitly here. -/
def GetCertName (releaseName clusterName nspace : String) : String :=
  releaseName ++ "-" ++ nspace ++ "-" ++ clusterName ++ "-ca"

/-- `cert.GetCertNameHash`: hash of the certificate name under the
`ca-cert-propagation` purpose string. -/
def GetCertNameHash (releaseName clusterName nspace : String) : String :=
  GetNameHash "ca-cert-propagation" (GetCertName releaseName clusterName nspace)

/-! ## Backing store and write-operation traces

The management-cluster store holds the three derived artifact kinds the
operator writes: remote secrets (`corev1.Secret`), intermediate-CA
certificate requests (`cmv1.Certificate`) and propagation descriptors
(`kcmv1beta1.MultiClusterService`, cluster-scoped). Every store write is
also recorded as an `Op`, so theorems can speak about which API calls a
code path issues and in which order. -/

/-- Identity of a namespaced secret. -/
structure SecretId where
  nspace : String
  name : String
  deriving Repr, DecidableEq

/-- `cmv1.Certificate`: the fields set by `generateClusterCACertificate`. -/
structure Certificate where
  name : String
  nspace : String
  labels : List (String × String)
  isCA : Bool
  commonName : String
  organizations : List String
  privateKeyAlgorithm : String
  privateKeySize : Nat
  secretName : String
  issuerRefName : String
  issuerRefKind : String
  issuerRefGroup : String
  deriving Repr, DecidableEq

/-- `kcmv1beta1.MultiClusterService`: the fields set by the operator. -/
structure MultiClusterService where
  name : String
  labels : List (String × String)
  selectorMatchLabels : List (String × String)
  serviceName : String
  serviceNamespace : String
  serviceTemplate : String
  refIdentifier : String
  refKind : String
  refName : String
  refNamespace : String
  deriving Repr, DecidableEq

/-- A write issued against the backing store. -/
inductive Op where
  | deleteSecret (id : SecretId)
  | createSecret (id : SecretId)
  | updateSecret (id : SecretId)
  | deleteCertificate (nspace name : String)
  | createCertificate (nspace name : String)
  | deleteMCS (name : String)
  | createMCS (name : String)
  deriving Repr, DecidableEq

/-- The management-cluster backing store. -/
structure Store where
  secrets : List SecretId
  certs : List Certificate
  mcss : List MultiClusterService
  deriving Repr, DecidableEq

/-- `client.Get` on a secret succeeding (`utils.IsResourceExists`). -/
def secretExists (st : Store) (id : SecretId) : Bool :=
  st.secrets.contains id

/-- `client.Get` on a certificate succeeding. -/
def certExists (st : Store) (nspace name : String) : Bool :=
  st.certs.any (fun c => c.nspace = nspace ∧ c.name = name)

/-- `client.Get` on a cluster-scoped MultiClusterService succeeding
(`utils.IsResourceExists` with empty namespace). -/
def mcsExists (st : Store) (name : String) : Bool :=
  st.mcss.any (fun m => m.name = name)

/-- Outcome of a manager call: Go error (or nil), the store afterwards, and
the trace of store writes issued. -/
abbrev StepResult := Except String Unit × Store × List Op

/-! ## Credential builder (`remotesecret`, src/unnamed/part_003 and part_004) -/

/-- `remotesecret.CreateOptions`. -/
structure CreateOptions where
  allowOverwrite : Bool
  deriving Repr, DecidableEq

/-- Read-only environment of `RemoteSecretManager.TryCreate`: results of the
k8s lookups that target the `Credential`/`Region` objects and remote
clusters rather than the modelled store. Kubeconfig blobs and client
handles are abstracted as `Nat` tokens. -/
structure RemoteSecretEnv where
  /-- `k8s.CreatedInKCMRegion` -/
  createdInKCMRegion : Except String Bool
  /-- `k8s.GetKcmRegionClusterNameRelatedToClusterDeployment` -/
  regionClusterName : Except String String
  /-- `k8s.GetKubeconfigByRegionName` (may yield no kubeconfig) -/
  kubeconfigByRegionName : String → Except String (Option Nat)
  /-- `k8s.NewKubeClientFromKubeconfig` -/
  newKubeClientFromKubeconfig : Nat → Except String Nat
  /-- `k8s.GetKubeconfigFromSecret` against the region client -/
  kubeconfigFromSecretRegion : Nat → Except String Nat
  /-- `k8s.GetKubeconfigFromSecret` against the management client -/
  kubeconfigFromSecretLocal : Except String Nat

/-- Internal fallible steps of `CreateRemoteSecret` (part_004): the
`kube-system` namespace UID lookup used when the cluster name is empty, and
the token-acquisition / server-resolution / kubeconfig-encoding pipeline. -/
structure CreatorEnv where
  clusterUID : Except String String
  pipeline : Except String Unit

/-- The remote secret produced by `IstioRemoteSecretCreator.GetRemoteSecret`
(part_003) via `CreateRemoteSecret` (part_004) with `Type = remote`,
`ClusterName = cd.Name`, `KubeOptions.Namespace = istio.IstioSystemNamespace`:
on success the secret is named `GetRemoteSecretName(clusterName, cd.Namespace)`
in the istio system namespace, where `clusterName` falls back to the cluster
UID when `cd.Name` is empty. -/
def createRemoteSecretId (cenv : CreatorEnv) (istioNs : String)
    (cd : ClusterDeployment) : Except String SecretId :=
  match (if cd.name = "" then cenv.clusterUID else .ok cd.name) with
  | .error e => .error e
  | .ok clusterName =>
    cenv.pipeline.map (fun _ => ⟨istioNs, GetRemoteSecretName clusterName cd.nspace⟩)

/-- The `IIstioRemoteSecretCreator` interface: a kubeconfig blob to a remote
secret (or error). -/
abbrev RemoteSecretCreator := Nat → Except String SecretId

/-- `IstioRemoteSecretCreator` realised over a `CreatorEnv`. -/
def istioRemoteSecretCreator (cenv : CreatorEnv) (istioNs : String)
    (cd : ClusterDeployment) : RemoteSecretCreator :=
  fun _kubeconfig => createRemoteSecretId cenv istioNs cd

/-- `RemoteSecretManager.remoteSecretExists` (part_003). -/
def remoteSecretExists (istioNs : String) (cd : ClusterDeployment) (st : Store) : Bool :=
  secretExists st ⟨istioNs, GetRemoteSecretName cd.name cd.nspace⟩

/-- `RemoteSecretManager.createSecretResource` (part_003 lines 142-152):
issue a delete of the secret (tolerating not-found), then issue a create. -/
def createSecretResource (st : Store) (secret : SecretId) : StepResult :=
  let stDel : Store := { st with secrets := st.secrets.filter (fun s => s ≠ secret) }
  let ops := [Op.deleteSecret secret, Op.createSecret secret]
  if secretExists stDel secret then
    (.error "already exists", stDel, ops)
  else
    (.ok (), { stDel with secrets := secret :: stDel.secrets }, ops)

/-- The kubeconfig-acquisition section of `RemoteSecretManager.TryCreate`
(part_003 lines 83-118): region-aware resolution of the bootstrap
kubeconfig. -/
def resolveKubeconfig (env : RemoteSecretEnv) : Except String Nat :=
  match env.createdInKCMRegion with
  | .error e => .error ("failed to determine cluster region: " ++ e)
  | .ok true =>
    match env.regionClusterName with
    | .error e => .error ("failed to get cluster region: " ++ e)
    | .ok regionName =>
      match env.kubeconfigByRegionName regionName with
      | .error e => .error ("failed to get kubeconfig by region name: " ++ e)
      | .ok none => .error ("no kubeconfig found for region cluster name: " ++ regionName)
      | .ok (some regionKubeconfig) =>
        match env.newKubeClientFromKubeconfig regionKubeconfig with
        | .error e => .error ("failed to create kube client from region kubeconfig: " ++ e)
        | .ok regionClient =>
          match env.kubeconfigFromSecretRegion regionClient with
          | .error e => .error ("failed to get kubeconfig from secret: " ++ e)
          | .ok kc => .ok kc
  | .ok false =>
    match env.kubeconfigFromSecretLocal with
    | .error e => .error ("failed to get kubeconfig from secret: " ++ e)
    | .ok kc => .ok kc

/-- `RemoteSecretManager.TryCreate` (part_003 lines 62-133). -/
def RemoteSecretManagerTryCreate (env : RemoteSecretEnv) (creator : RemoteSecretCreator)
    (istioNs : String) (cd : ClusterDeployment) (opt : CreateOptions)
    (st : Store) : StepResult :=
  if ¬ IsClusterDeploymentReady cd then
    (.ok (), st, [])
  else if ¬ opt.allowOverwrite ∧ remoteSecretExists istioNs cd st then
    (.ok (), st, [])
  else
    match resolveKubeconfig env with
    | .error e => (.error e, st, [])
    | .ok kc =>
      match creator kc with
      | .error e => (.error ("failed to create remote secret: " ++ e), st, [])
      | .ok remoteSecret => createSecretResource st remoteSecret

/-- `RemoteSecretManager.TryDelete` (part_003 lines 39-59): delete the remote
secret by derived name, tolerating not-found. -/
def RemoteSecretManagerTryDelete (istioNs reqName reqNamespace : String)
    (st : Store) : StepResult :=
  let id : SecretId := ⟨istioNs, GetRemoteSecretName reqName reqNamespace⟩
  if secretExists st id then
    (.ok (), { st with secrets := st.secrets.filter (fun s => s ≠ id) }, [Op.deleteSecret id])
  else
    (.ok (), st, [Op.deleteSecret id])

/-! ## Certificate manager (`cert/cert_manager.go`) -/

/-- `CertManager.generateClusterCACertificate` (lines 120-149). -/
def generateClusterCACertificate (releaseName istioNs : String)
    (cd : ClusterDeployment) : Certificate :=
  let certName := GetCertName releaseName cd.name cd.nspace
  { name := certName
    nspace := istioNs
    labels := [("app.kubernetes.io/managed-by", "istio-operator")]
    isCA := true
    commonName := cd.name ++ " CA"
    organizations := ["Istio"]
    privateKeyAlgorithm := "ECDSA"
    privateKeySize := 521
    secretName := certName
    issuerRefName := releaseName ++ "-root"
    issuerRefKind := "Issuer"
    issuerRefGroup := "cert-manager.io" }

/-- `CertManager.createCertificate` (lines 105-118): `client.Create`,
treating already-exists as success. -/
def createCertificate (st : Store) (cert : Certificate) : StepResult :=
  if certExists st cert.nspace cert.name then
    (.ok (), st, [Op.createCertificate cert.nspace cert.name])
  else
    (.ok (), { st with certs := cert :: st.certs }, [Op.createCertificate cert.nspace cert.name])

/-- The MultiClusterService built by `CertManager.createCaMultiClusterService`
(lines 153-191): CA-secret propagation to region clusters of the same mesh.
Go map indexing `cd.Labels[utils.IstioMeshLabel]` yields `""` when absent. -/
def buildCaMCS (releaseName istioNs : String) (cd : ClusterDeployment) : MultiClusterService :=
  { name := GetCertNameHash releaseName cd.name cd.nspace
    labels := [("app.kubernetes.io/managed-by", "istio-operator"),
               ("cluster-name", cd.name),
               ("cluster-namespace", cd.nspace)]
    selectorMatchLabels := [(IstioMeshLabel, (lookupLabel cd.labels IstioMeshLabel).getD ""),
                            ("k0rdent.mirantis.com/kcm-region-cluster", "true")]
    serviceName := "istio-secret-propagation"
    serviceNamespace := istioNs
    serviceTemplate := releaseName ++ "-base-propagation"
    refIdentifier := "Data"
    refKind := "Secret"
    refName := GetCertName releaseName cd.name cd.nspace
    refNamespace := istioNs }

/-- `client.Create` of a MultiClusterService, treating already-exists as
success (`createCaMultiClusterService` lines 193-199, and
`multicluster.createMultiClusterService` lines 122-128). -/
def createMCSResource (st : Store) (mcs : MultiClusterService) : StepResult :=
  if mcsExists st mcs.name then
    (.ok (), st, [Op.createMCS mcs.name])
  else
    (.ok (), { st with mcss := mcs :: st.mcss }, [Op.createMCS mcs.name])

/-- `CertManager.TryCreate` (lines 34-67): always ensure the certificate;
then, only for a ready, in-mesh, region-created cluster, ensure the
CA-propagation MultiClusterService. `regionEnv` is the result of
`k8s.CreatedInKCMRegion`. -/
def CertManagerTryCreate (regionEnv : Except String Bool) (releaseName istioNs : String)
    (cd : ClusterDeployment) (st : Store) : StepResult :=
  let cert := generateClusterCACertificate releaseName istioNs cd
  let (_, st1, ops1) := createCertificate st cert
  if ¬ IsClusterDeploymentReady cd then
    (.ok (), st1, ops1)
  else if ¬ IsInMesh cd then
    (.ok (), st1, ops1)
  else
    match regionEnv with
    | .error e => (.error ("failed to determine cluster region: " ++ e), st1, ops1)
    | .ok false => (.ok (), st1, ops1)
    | .ok true =>
      let (r2, st2, ops2) := createMCSResource st1 (buildCaMCS releaseName istioNs cd)
      (r2, st2, ops1 ++ ops2)

/-- `CertManager.TryDelete` (lines 69-103): delete the certificate; when that
delete reports not-found the function returns success IMMEDIATELY, without
attempting the MultiClusterService delete; otherwise it goes on to delete the
CA-propagation MultiClusterService, tolerating its absence. -/
def CertManagerTryDelete (releaseName istioNs reqName reqNamespace : String)
    (st : Store) : StepResult :=
  let certName := GetCertName releaseName reqName reqNamespace
  if ¬ certExists st istioNs certName then
    -- errors.IsNotFound: "Istio Certificate already deleted"; return nil
    (.ok (), st, [Op.deleteCertificate istioNs certName])
  else
    let st1 : Store :=
      { st with certs := st.certs.filter (fun c => ¬ (c.nspace = istioNs ∧ c.name = certName)) }
    let mcsName := GetCertNameHash releaseName reqName reqNamespace
    if ¬ mcsExists st1 mcsName then
      (.ok (), st1, [Op.deleteCertificate istioNs certName, Op.deleteMCS mcsName])
    else
      (.ok (), { st1 with mcss := st1.mcss.filter (fun m => m.name ≠ mcsName) },
       [Op.deleteCertificate istioNs certName, Op.deleteMCS mcsName])

/-! ## Remote-secret propagation manager (`multicluster/remote_secret_propagation_manager.go`) -/

/-- The MultiClusterService built by `createMultiClusterService` (lines
83-120): fans the remote secret out to clusters selected by the CURRENT
membership label value `member`. -/
def buildPropagationMCS (releaseName istioNs : String) (cd : ClusterDeployment) : MultiClusterService :=
  { name := GetMultiClusterServiceName cd.name cd.nspace
    labels := [("app.kubernetes.io/managed-by", "istio-operator"),
               ("cluster-name", cd.name),
               ("cluster-namespace", cd.nspace)]
    selectorMatchLabels := [(IstioRoleLabel, "member")]
    serviceName := "istio-secret-propagation"
    serviceNamespace := istioNs
    serviceTemplate := releaseName ++ "-base-propagation"
    refIdentifier := "Secret"
    refKind := "Secret"
    refName := GetRemoteSecretName cd.name cd.nspace
    refNamespace := istioNs }

/-- `RemoteSecretPropagationManager.TryCreate` (lines 31-52): existence check,
then create. There is no readiness check on this path. -/
def PropagationManagerTryCreate (releaseName istioNs : String)
    (cd : ClusterDeployment) (st : Store) : StepResult :=
  if mcsExists st (GetMultiClusterServiceName cd.name cd.nspace) then
    (.ok (), st, [])
  else
    createMCSResource st (buildPropagationMCS releaseName istioNs cd)

/-- `RemoteSecretPropagationManager.TryDelete` (lines 54-75): delete by
derived name, tolerating not-found. -/
def PropagationManagerTryDelete (reqName reqNamespace : String) (st : Store) : StepResult :=
  let mcsName := GetMultiClusterServiceName reqName reqNamespace
  if mcsExists st mcsName then
    (.ok (), { st with mcss := st.mcss.filter (fun m => m.name ≠ mcsName) }, [Op.deleteMCS mcsName])
  else
    (.ok (), st, [Op.deleteMCS mcsName])

/-! ## Lifecycle reconciler (`clusterdeployment_controller.go`, part_002) -/

/-- `ClusterDeploymentReconciler.tryCreateResources` (part_002 lines 145-183):
remote secret, then certificate, then propagation descriptor, aborting the
remaining steps on the first failure. The reconciler's event-driven path
builds the credential without the overwrite directive (the rotation scheduler
is the only caller passing `AllowOverwrite: true`). -/
def tryCreateResources (env : RemoteSecretEnv) (creator : RemoteSecretCreator)
    (regionEnv : Except String Bool) (releaseName istioNs : String)
    (cd : ClusterDeployment) (st : Store) : StepResult :=
  match RemoteSecretManagerTryCreate env creator istioNs cd ⟨false⟩ st with
  | (.error e, st1, ops1) => (.error e, st1, ops1)
  | (.ok _, st1, ops1) =>
    match CertManagerTryCreate regionEnv releaseName istioNs cd st1 with
    | (.error e, st2, ops2) => (.error e, st2, ops1 ++ ops2)
    | (.ok _, st2, ops2) =>
      let (r3, st3, ops3) := PropagationManagerTryCreate releaseName istioNs cd st2
      (r3, st3, ops1 ++ ops2 ++ ops3)

/-- `ClusterDeploymentReconciler.tryDeleteResources` (part_002 lines 103-143):
remote secret, then certificate (with its CA-propagation descriptor), then
the remote-secret propagation descriptor. -/
def tryDeleteResources (releaseName istioNs reqName reqNamespace : String)
    (st : Store) : StepResult :=
  match RemoteSecretManagerTryDelete istioNs reqName reqNamespace st with
  | (.error e, st1, ops1) => (.error e, st1, ops1)
  | (.ok _, st1, ops1) =>
    match CertManagerTryDelete releaseName istioNs reqName reqNamespace st1 with
    | (.error e, st2, ops2) => (.error e, st2, ops1 ++ ops2)
    | (.ok _, st2, ops2) =>
      let (r3, st3, ops3) := PropagationManagerTryDelete reqName reqNamespace st2
      (r3, st3, ops1 ++ ops2 ++ ops3)

/-! ## Rotation scheduler (`secret-rotation/istio_secret_rotation.go`) -/

/-- `RotationInterval` in seconds (`1 * time.Hour`). -/
def RotationInterval : Nat := 3600

/-- `Manager.getIstioClusters` (lines 87-101): list ClusterDeployments whose
membership label EXISTS (`selection.Exists` — the label value is not
inspected). -/
def getIstioClusters (clusters : List ClusterDeployment) : List ClusterDeployment :=
  clusters.filter (fun cd => (lookupLabel cd.labels IstioRoleLabel).isSome)

/-- One iteration of the per-cluster loop of `Manager.rotateSecrets`
(lines 76-82): invoke the builder, record the invocation, bump the success
count on nil error. -/
def rotateStep (envOf : ClusterDeployment → RemoteSecretEnv)
    (creatorOf : ClusterDeployment → RemoteSecretCreator) (istioNs : String)
    (opt : CreateOptions)
    (acc : Store × List (ClusterDeployment × CreateOptions) × Nat)
    (cluster : ClusterDeployment) :
    Store × List (ClusterDeployment × CreateOptions) × Nat :=
  let out :=
    RemoteSecretManagerTryCreate (envOf cluster) (creatorOf cluster) istioNs cluster opt acc.1
  (out.2.1, acc.2.1 ++ [(cluster, opt)],
   acc.2.2 + (match out.1 with | .ok _ => 1 | .error _ => 0))

/-- `Manager.rotateSecrets` (lines 56-85): enumerate, then invoke the
credential builder with `AllowOverwrite: true` on every enumerated cluster,
counting successes and continuing past failures. Returns the store, the
invocations made (cluster and options, in order) and the end-of-cycle report
`(total, successful, failed)` — `none` when the enumeration was empty and
the cycle returned early without a report. -/
def rotateSecrets (envOf : ClusterDeployment → RemoteSecretEnv)
    (creatorOf : ClusterDeployment → RemoteSecretCreator) (istioNs : String)
    (clusters : List ClusterDeployment) (st : Store) :
    Store × List (ClusterDeployment × CreateOptions) × Option (Nat × Nat × Nat) :=
  let selected := getIstioClusters clusters
  if selected.isEmpty then
    (st, [], none)
  else
    let opt : CreateOptions := ⟨true⟩
    let (stF, invocations, successCount) :=
      selected.foldl (rotateStep envOf creatorOf istioNs opt) (st, [], 0)
    (stF, invocations, some (selected.length, successCount, selected.length - successCount))

/-! ## Token acquisition (`remotesecret`, src/unnamed/part_004) -/

/-- `v1.ServiceAccountRootCAKey` -/
def ServiceAccountRootCAKey : String := "ca.crt"

/-- `v1.ServiceAccountTokenKey` -/
def ServiceAccountTokenKey : String := "token"

/-- `tokenWaitBackoff = time.Second`, in seconds. -/
def tokenWaitBackoff : Nat := 1

/-- `serviceAccountTokenExpirationSeconds = 60 * 120`. -/
def serviceAccountTokenExpirationSeconds : Nat := 60 * 120

/-- A `corev1.Secret` carrying token data. -/
structure TokenSecret where
  name : String
  nspace : String
  data : List (String × String)
  deriving Repr, DecidableEq

/-- `tokenDataFromSecret` (part_004 lines 319-332): require the `ca.crt`
key, then the `token` key. -/
def tokenDataFromSecret (tokenSecret : TokenSecret) : Except String (String × String) :=
  match lookupLabel tokenSecret.data ServiceAccountRootCAKey with
  | none => .error "no ca.crt data found"
  | some ca =>
    match lookupLabel tokenSecret.data ServiceAccountTokenKey with
    | none => .error "no token data found"
    | some token => .ok (ca, token)

/-- `backoff.Retry` over `backoff.WithMaxRetries(backoff.NewConstantBackOff(interval), maxRetries)`
(cenkalti/backoff v4): run the operation; on failure, if the retry budget is
exhausted return the error, otherwise sleep one interval and run it again.
The operation thus executes at most `maxRetries + 1` times. Returns the
result, the number of operation executions, and the trace of sleeps. -/
def backoffRetryAux {α : Type} (op : Nat → Except String α) (interval : Nat) :
    Nat → Nat → List Nat → Except String α × Nat × List Nat
  | 0, i, sleeps =>
    match op i with
    | .ok a => (.ok a, i + 1, sleeps)
    | .error e => (.error e, i + 1, sleeps)
  | r + 1, i, sleeps =>
    match op i with
    | .ok a => (.ok a, i + 1, sleeps)
    | .error _ => backoffRetryAux op interval r (i + 1) (sleeps ++ [interval])

/-- `backoff.Retry(op, backoff.WithMaxRetries(backoff.NewConstantBackOff(interval), maxRetries))`. -/
def backoffRetry {α : Type} (op : Nat → Except String α) (interval maxRetries : Nat) :
    Except String α × Nat × List Nat :=
  backoffRetryAux op interval maxRetries 0 []

/-- `waitForTokenData` (part_004 lines 297-317): extract the token data from
the in-hand secret; when a key is missing, re-read the secret through the
bounded backoff loop (`tokenWaitBackoff` interval, 5 max retries).
`fetch i` is the result of the i-th re-read (`client.Clientset...Secrets.Get`).
Returns the extraction result, the number of re-reads issued, and the sleep
trace. -/
def waitForTokenData (fetch : Nat → Except String TokenSecret)
    (secret : TokenSecret) : Except String (String × String) × Nat × List Nat :=
  match tokenDataFromSecret secret with
  | .ok d => (.ok d, 0, [])
  | .error _ =>
    backoffRetry (fun i => (fetch i).bind tokenDataFromSecret) tokenWaitBackoff 5

/-- An `v1.ObjectReference` entry of `serviceAccount.Secrets`. -/
structure SecretRef where
  name : String
  nspace : String
  deriving Repr, DecidableEq

/-- A `v1.ServiceAccount`: the fields the legacy path reads. -/
structure ServiceAccount where
  name : String
  nspace : String
  secrets : List SecretRef
  deriving Repr, DecidableEq

/-- `legacyGetServiceAccountSecret` (part_004 lines 368-406): fail when the
service account lists no secrets; with an explicit `--secret-name`, fail
unless some listed secret matches it; without one, require the list to be a
singleton; finally read the resolved secret (namespace defaulting to the
option namespace when the reference leaves it empty). `fetch` is the final
`client.Clientset.CoreV1().Secrets(ns).Get(name)`. -/
def legacyGetServiceAccountSecret (fetch : String → String → Except String TokenSecret)
    (serviceAccount : ServiceAccount) (optSecretName optNamespace : String) :
    Except String TokenSecret :=
  match serviceAccount.secrets with
  | [] => .error ("no secret found in the service account: " ++ serviceAccount.name)
  | first :: rest =>
    if optSecretName ≠ "" then
      match serviceAccount.secrets.find? (fun s => s.name = optSecretName) with
      | none => .error ("provided secret does not exist: " ++ optSecretName)
      | some s =>
        fetch (if s.nspace = "" then optNamespace else s.nspace) s.name
    else
      if rest.isEmpty then
        fetch (if first.nspace = "" then optNamespace else first.nspace) first.name
      else
        .error ("wrong number of secrets in serviceaccount " ++ serviceAccount.name)

/-! ## Concrete fixtures used by witnesses and counterexamples -/

/-- A ready, provisioned, mesh-member cluster `(name="c1", namespace="ns1")`. -/
def cdReady : ClusterDeployment :=
  ⟨"c1", "ns1", [(IstioRoleLabel, "member")], "aws-cluster-template",
   [⟨CAPIClusterSummaryCondition, "True"⟩]⟩

/-- The same cluster with an empty conditions list: not ready. -/
def cdNotReady : ClusterDeployment :=
  ⟨"c1", "ns1", [(IstioRoleLabel, "member")], "aws-cluster-template", []⟩

/-- A cluster whose membership label carries a value outside
`IstioRoleLabelExpectedValues`. -/
def cdUnexpectedRole : ClusterDeployment :=
  ⟨"b1", "ns1", [(IstioRoleLabel, "banana")], "aws-cluster-template",
   [⟨CAPIClusterSummaryCondition, "True"⟩]⟩

/-- An empty backing store. -/
def emptyStore : Store := ⟨[], [], []⟩

/-- An environment in which every external lookup succeeds trivially
(primary region, local kubeconfig available). -/
def trivialEnv : RemoteSecretEnv :=
  ⟨.ok false, .ok "", fun _ => .ok none, fun k => .ok k, fun k => .ok k, .ok 0⟩

/-- A creator that produces the derived remote secret for `cdReady`. -/
def trivialCreator : RemoteSecretCreator :=
  fun _ => .ok ⟨"istio-system", GetRemoteSecretName "c1" "ns1"⟩

/-- A store holding only the orphaned CA-propagation descriptor of
`(c1, ns1)` — the certificate itself is absent. -/
def stOrphanCaMCS : Store :=
  ⟨[], [], [buildCaMCS "rel" "istio-system" cdReady]⟩

/-- A store already holding the derived remote secret of `(c1, ns1)`. -/
def stWithSecret : Store :=
  ⟨[⟨"istio-system", GetRemoteSecretName "c1" "ns1"⟩], [], []⟩

/-- A creator environment whose internal pipeline succeeds. -/
def cenvOk : CreatorEnv := ⟨.ok "cluster-uid", .ok ()⟩

/-- A token secret whose data keys never materialise. -/
def emptyTokenSecret : TokenSecret := ⟨"sa-istio-remote-secret-token", "istio-system", []⟩

/-- A token secret with both required data keys present. -/
def fullTokenSecret : TokenSecret :=
  ⟨"sa-istio-remote-secret-token", "istio-system", [("ca.crt", "CA"), ("token", "TOK")]⟩

/-- A service account listing exactly one token secret (namespace left
empty in the reference, as the legacy API often does). -/
def saSingle : ServiceAccount :=
  ⟨"istio-reader-service-account", "istio-system", [⟨"tok-secret", ""⟩]⟩

/-- A store read that always succeeds, returning the named secret. -/
def fetchOk : String → String → Except String TokenSecret :=
  fun ns n => .ok ⟨n, ns, []⟩

/-- The readiness-indicating condition type of a cluster: `Ready` for
adopted clusters, `CAPIClusterSummary` for provisioned ones (the branch
inside `utils.IsClusterDeploymentReady`). -/
def readinessConditionType (cd : ClusterDeployment) : String :=
  if IsAdopted cd then ReadyCondition else CAPIClusterSummaryCondition

/-! ## Helper lemmas -/

theorem foldl_flag {α : Type} (p : α → Bool) (l : List α) (b : Bool) :
    l.foldl (fun r c => p c || r) b = (b || l.any p) := by
  induction l generalizing b with
  | nil => simp
  | cons a l ih => cases h : p a <;> simp [List.foldl_cons, ih, h]

/-! ## Claims -/

/-- C10: `IsClusterDeploymentReady` returns true exactly when a condition of
the expected type (`CAPIClusterSummary` for provisioned clusters, `Ready`
for adopted ones) is present in the conditions list, regardless of the
condition's `Status` — in particular a relevant condition with status
`False` still yields ready, and an empty conditions list yields not
ready. -/
theorem readiness_is_presence_only :
    (∀ cd : ClusterDeployment,
      IsClusterDeploymentReady cd
        = cd.conditions.any (fun c => decide (c.type = readinessConditionType cd)))
    ∧ IsClusterDeploymentReady
        ⟨"c1", "ns1", [], "aws-cluster-template",
         [⟨CAPIClusterSummaryCondition, "False"⟩]⟩ = true
    ∧ (∀ cd : ClusterDeployment, cd.conditions = [] →
        IsClusterDeploymentReady cd = false) := by
  refine ⟨fun cd => ?_, by decide, fun cd h => ?_⟩
  · cases hA : IsAdopted cd <;>
      simp [IsClusterDeploymentReady, readinessConditionType, hA, foldl_flag]
  · simp [IsClusterDeploymentReady, h]

/-- C7: the CA request generated for any cluster carries the derived name
`{releaseName}-{namespace}-{clusterName}-ca`, the CA flag, common name
`{clusterName} CA`, organization `Istio`, an ECDSA/521 key, a secret name
equal to the record name, and an issuer reference to the shared root issuer
`{releaseName}-root`. -/
theorem ca_request_record_fields (releaseName istioNs : String)
    (cd : ClusterDeployment) :
    (generateClusterCACertificate releaseName istioNs cd).name
        = GetCertName releaseName cd.name cd.nspace
    ∧ (generateClusterCACertificate releaseName istioNs cd).isCA = true
    ∧ (generateClusterCACertificate releaseName istioNs cd).commonName = cd.name ++ " CA"
    ∧ (generateClusterCACertificate releaseName istioNs cd).organizations = ["Istio"]
    ∧ (generateClusterCACertificate releaseName istioNs cd).privateKeyAlgorithm = "ECDSA"
    ∧ (generateClusterCACertificate releaseName istioNs cd).privateKeySize = 521
    ∧ (generateClusterCACertificate releaseName istioNs cd).secretName
        = (generateClusterCACertificate releaseName istioNs cd).name
    ∧ (generateClusterCACertificate releaseName istioNs cd).issuerRefName
        = releaseName ++ "-root" :=
  ⟨rfl, rfl, rfl, rfl, rfl, rfl, rfl, rfl⟩

/-- C6: for ClusterIdentity `(name="c1", namespace="ns1")` under release name
`rel`, the derived CA request name is `rel-ns1-c1-ca`; the derived credential
name is `istio-remote-secret-` followed by the lowercase-hex FNV-1a 32-bit
hash of `ns1-c1` (concretely `istio-remote-secret-3f132440`); the derived
propagation-descriptor name is `remote-secret-propagation-` followed by the
same hash (concretely `remote-secret-propagation-3f132440`); and the
propagation descriptor's cluster selector matches the current membership
label value `member`. -/
theorem derived_names_for_c1_ns1 :
    GetCertName "rel" "c1" "ns1" = "rel-ns1-c1-ca"
    ∧ GetRemoteSecretName "c1" "ns1"
        = "istio-remote-secret-" ++ hexStr (fnv1a32 "ns1-c1")
    ∧ GetRemoteSecretName "c1" "ns1" = "istio-remote-secret-3f132440"
    ∧ GetMultiClusterServiceName "c1" "ns1"
        = "remote-secret-propagation-" ++ hexStr (fnv1a32 "ns1-c1")
    ∧ GetMultiClusterServiceName "c1" "ns1" = "remote-secret-propagation-3f132440"
    ∧ (buildPropagationMCS "rel" "istio-system" cdReady).selectorMatchLabels
        = [(IstioRoleLabel, "member")] := by
  refine ⟨rfl, by decide, by decide, by decide, by decide, rfl⟩

/-- C4: the credential builder returns success with no store write when the
cluster is not ready and overwrite is off, and likewise when overwrite is
off and the derived remote secret already exists. -/
theorem buildCredential_skip_paths (env : RemoteSecretEnv) (creator : RemoteSecretCreator)
    (istioNs : String) (cd : ClusterDeployment) (opt : CreateOptions) (st : Store) :
    (IsClusterDeploymentReady cd = false → opt.allowOverwrite = false →
      RemoteSecretManagerTryCreate env creator istioNs cd opt st = (.ok (), st, []))
    ∧ (opt.allowOverwrite = false → remoteSecretExists istioNs cd st = true →
      RemoteSecretManagerTryCreate env creator istioNs cd opt st = (.ok (), st, [])) := by
  constructor
  · intro h _
    simp [RemoteSecretManagerTryCreate, h]
  · intro h1 h2
    cases hr : IsClusterDeploymentReady cd
    · simp [RemoteSecretManagerTryCreate, hr]
    · simp [RemoteSecretManagerTryCreate, hr, h1, h2]

/-- Witness for C4 at concrete inputs: a not-ready cluster, and a ready
cluster whose remote secret already exists. -/
theorem buildCredential_skip_paths_witness :
    (IsClusterDeploymentReady cdNotReady = false
      ∧ RemoteSecretManagerTryCreate trivialEnv trivialCreator "istio-system"
          cdNotReady ⟨false⟩ emptyStore = (.ok (), emptyStore, []))
    ∧ (remoteSecretExists "istio-system" cdReady stWithSecret = true
      ∧ RemoteSecretManagerTryCreate trivialEnv trivialCreator "istio-system"
          cdReady ⟨false⟩ stWithSecret = (.ok (), stWithSecret, [])) :=
  ⟨⟨by decide,
    (buildCredential_skip_paths trivialEnv trivialCreator "istio-system" cdNotReady
      ⟨false⟩ emptyStore).1 (by decide) rfl⟩,
   ⟨by decide,
    (buildCredential_skip_paths trivialEnv trivialCreator "istio-system" cdReady
      ⟨false⟩ stWithSecret).2 rfl (by decide)⟩⟩

theorem createSecretResource_ops (st : Store) (id : SecretId) :
    (createSecretResource st id).2.2 = [Op.deleteSecret id, Op.createSecret id] := by
  unfold createSecretResource
  dsimp only
  split <;> rfl

theorem tryCreate_writes_shape (env : RemoteSecretEnv) (creator : RemoteSecretCreator)
    (istioNs : String) (cd : ClusterDeployment) (opt : CreateOptions) (st : Store) :
    (RemoteSecretManagerTryCreate env creator istioNs cd opt st).2.2 = []
    ∨ ∃ kc id, creator kc = .ok id
        ∧ (RemoteSecretManagerTryCreate env creator istioNs cd opt st).2.2
            = [Op.deleteSecret id, Op.createSecret id] := by
  unfold RemoteSecretManagerTryCreate
  split
  · exact Or.inl rfl
  split
  · exact Or.inl rfl
  rcases hk : resolveKubeconfig env with e | kc
  · exact Or.inl rfl
  · dsimp only
    rcases hc : creator kc with e2 | id
    · exact Or.inl rfl
    · exact Or.inr ⟨kc, id, hc, createSecretResource_ops st id⟩

/-- C5: the credential builder writes the remote secret only by
delete-then-recreate — whenever it writes at all, the trace is exactly a
delete of the secret immediately followed by a create of the same secret,
and no update/patch operation is ever issued; with the real Istio creator
the secret written is the one with the derived name in the istio system
namespace. -/
theorem buildCredential_delete_then_create (env : RemoteSecretEnv)
    (creator : RemoteSecretCreator) (istioNs : String) (cd : ClusterDeployment)
    (opt : CreateOptions) (st : Store) :
    (∀ id, Op.updateSecret id ∉
        (RemoteSecretManagerTryCreate env creator istioNs cd opt st).2.2)
    ∧ ((RemoteSecretManagerTryCreate env creator istioNs cd opt st).2.2 = []
        ∨ ∃ id, (RemoteSecretManagerTryCreate env creator istioNs cd opt st).2.2
            = [Op.deleteSecret id, Op.createSecret id])
    ∧ (∀ cenv : CreatorEnv, creator = istioRemoteSecretCreator cenv istioNs cd →
        cd.name ≠ "" →
        ∀ id, Op.createSecret id ∈
            (RemoteSecretManagerTryCreate env creator istioNs cd opt st).2.2 →
          id = ⟨istioNs, GetRemoteSecretName cd.name cd.nspace⟩) := by
  rcases tryCreate_writes_shape env creator istioNs cd opt st with h | ⟨kc, id, hc, h⟩
  · refine ⟨fun id2 => ?_, Or.inl h, fun cenv _ _ id2 hmem => ?_⟩
    · rw [h]; exact List.not_mem_nil _
    · rw [h] at hmem; exact absurd hmem (List.not_mem_nil _)
  · refine ⟨fun id2 => ?_, Or.inr ⟨id, h⟩, fun cenv hcr hn id2 hmem => ?_⟩
    · rw [h]; simp
    · rw [h] at hmem
      simp only [List.mem_cons, List.not_mem_nil, or_false] at hmem
      rcases hmem with hmem | hmem
      · exact absurd hmem (by simp)
      · have hid : id2 = id := by
          exact Op.createSecret.inj hmem
        subst hid
        rw [hcr] at hc
        unfold istioRemoteSecretCreator createRemoteSecretId at hc
        simp only [if_neg hn] at hc
        cases hp : cenv.pipeline with
        | error e => rw [hp] at hc; exact absurd hc (by simp [Except.map])
        | ok u =>
          rw [hp] at hc
          simpa [Except.map] using hc.symm

/-- Witness for C5: with the real creator on a ready cluster over an empty
store, the create that is issued targets the derived name. -/
theorem buildCredential_delete_then_create_witness :
    cdReady.name ≠ ""
    ∧ (⟨"istio-system", GetRemoteSecretName "c1" "ns1"⟩ : SecretId)
        = ⟨"istio-system", GetRemoteSecretName cdReady.name cdReady.nspace⟩ :=
  ⟨by decide,
   (buildCredential_delete_then_create trivialEnv
      (istioRemoteSecretCreator cenvOk "istio-system" cdReady) "istio-system"
      cdReady ⟨true⟩ emptyStore).2.2 cenvOk rfl (by decide) _ (by decide)⟩

theorem createCertificate_ok (st : Store) (cert : Certificate) :
    (createCertificate st cert).1 = .ok () := by
  unfold createCertificate
  split <;> rfl

theorem createCertificate_secrets (st : Store) (cert : Certificate) :
    (createCertificate st cert).2.1.secrets = st.secrets := by
  unfold createCertificate
  split <;> rfl

theorem createCertificate_present (st : Store) (cert : Certificate) :
    certExists (createCertificate st cert).2.1 cert.nspace cert.name = true := by
  unfold createCertificate
  split
  · next h => exact h
  · simp [certExists]

theorem propTryCreate_ok (releaseName istioNs : String) (cd : ClusterDeployment)
    (st : Store) : (PropagationManagerTryCreate releaseName istioNs cd st).1 = .ok () := by
  unfold PropagationManagerTryCreate createMCSResource
  split
  · rfl
  · split <;> rfl

theorem propTryCreate_secrets (releaseName istioNs : String) (cd : ClusterDeployment)
    (st : Store) :
    (PropagationManagerTryCreate releaseName istioNs cd st).2.1.secrets = st.secrets := by
  unfold PropagationManagerTryCreate createMCSResource
  split
  · rfl
  · split <;> rfl

theorem propTryCreate_certs (releaseName istioNs : String) (cd : ClusterDeployment)
    (st : Store) :
    (PropagationManagerTryCreate releaseName istioNs cd st).2.1.certs = st.certs := by
  unfold PropagationManagerTryCreate createMCSResource
  split
  · rfl
  · split <;> rfl

theorem propTryCreate_mcs (releaseName istioNs : String) (cd : ClusterDeployment)
    (st : Store) :
    mcsExists (PropagationManagerTryCreate releaseName istioNs cd st).2.1
      (GetMultiClusterServiceName cd.name cd.nspace) = true := by
  unfold PropagationManagerTryCreate
  split
  · next h => exact h
  · unfold createMCSResource
    split
    · next h2 => exact h2
    · simp only [mcsExists, List.any_cons]
      simp [buildPropagationMCS]

theorem certExists_of_certs_eq (st1 st2 : Store) (nspace name : String)
    (h : st1.certs = st2.certs) : certExists st1 nspace name = certExists st2 nspace name := by
  simp [certExists, h]

theorem certTryCreate_not_ready (regionEnv : Except String Bool)
    (releaseName istioNs : String) (cd : ClusterDeployment) (st : Store)
    (h : IsClusterDeploymentReady cd = false) :
    CertManagerTryCreate regionEnv releaseName istioNs cd st
      = (.ok (),
         (createCertificate st (generateClusterCACertificate releaseName istioNs cd)).2.1,
         (createCertificate st (generateClusterCACertificate releaseName istioNs cd)).2.2) := by
  unfold CertManagerTryCreate
  rcases hc : createCertificate st (generateClusterCACertificate releaseName istioNs cd)
    with ⟨r, st1, ops1⟩
  simp [h, hc]

/-- C1 (amended): running the reconciler's create path on a ClusterIdentity
lacking the readiness-indicating condition creates no RemoteAccessCredential
secret and still creates the intermediate-CA certificate request, but it
DOES ensure the remote-secret PropagationDescriptor (MultiClusterService):
the propagation manager performs no readiness check. -/
theorem create_path_readiness_gating (env : RemoteSecretEnv)
    (creator : RemoteSecretCreator) (regionEnv : Except String Bool)
    (releaseName istioNs : String) (cd : ClusterDeployment) (st : Store)
    (h : IsClusterDeploymentReady cd = false) :
    (tryCreateResources env creator regionEnv releaseName istioNs cd st).1 = .ok ()
    ∧ (tryCreateResources env creator regionEnv releaseName istioNs cd st).2.1.secrets
        = st.secrets
    ∧ certExists (tryCreateResources env creator regionEnv releaseName istioNs cd st).2.1
        istioNs (GetCertName releaseName cd.name cd.nspace) = true
    ∧ mcsExists (tryCreateResources env creator regionEnv releaseName istioNs cd st).2.1
        (GetMultiClusterServiceName cd.name cd.nspace) = true := by
  have hrs : RemoteSecretManagerTryCreate env creator istioNs cd ⟨false⟩ st
      = (.ok (), st, []) := by
    simp [RemoteSecretManagerTryCreate, h]
  have hcert := certTryCreate_not_ready regionEnv releaseName istioNs cd st h
  unfold tryCreateResources
  rw [hrs]
  dsimp only
  rw [hcert]
  dsimp only
  rcases hp : PropagationManagerTryCreate releaseName istioNs cd
      (createCertificate st (generateClusterCACertificate releaseName istioNs cd)).2.1
    with ⟨r3, st3, ops3⟩
  have h1 : r3 = .ok () := by
    have := propTryCreate_ok releaseName istioNs cd
      (createCertificate st (generateClusterCACertificate releaseName istioNs cd)).2.1
    rw [hp] at this
    exact this
  have h2 : st3.secrets = st.secrets := by
    have := propTryCreate_secrets releaseName istioNs cd
      (createCertificate st (generateClusterCACertificate releaseName istioNs cd)).2.1
    rw [hp] at this
    rw [this, createCertificate_secrets]
  have h3 : certExists st3 istioNs (GetCertName releaseName cd.name cd.nspace) = true := by
    have hcc := propTryCreate_certs releaseName istioNs cd
      (createCertificate st (generateClusterCACertificate releaseName istioNs cd)).2.1
    rw [hp] at hcc
    rw [certExists_of_certs_eq st3 _ istioNs _ hcc]
    exact createCertificate_present st (generateClusterCACertificate releaseName istioNs cd)
  have h4 : mcsExists st3 (GetMultiClusterServiceName cd.name cd.nspace) = true := by
    have := propTryCreate_mcs releaseName istioNs cd
      (createCertificate st (generateClusterCACertificate releaseName istioNs cd)).2.1
    rw [hp] at this
    exact this
  exact ⟨h1, h2, h3, h4⟩

/-- C1 counterexample: the claim that the create path produces NO
remote-secret PropagationDescriptor for a not-ready ClusterIdentity is
false — starting from an empty store with the not-ready `(c1, ns1)`, the
create path leaves the remote-secret MultiClusterService in the store. -/
theorem create_path_not_ready_creates_propagation :
    IsClusterDeploymentReady cdNotReady = false
    ∧ mcsExists emptyStore (GetMultiClusterServiceName "c1" "ns1") = false
    ∧ mcsExists
        (tryCreateResources trivialEnv trivialCreator (.ok false) "rel" "istio-system"
          cdNotReady emptyStore).2.1
        (GetMultiClusterServiceName "c1" "ns1") = true :=
  ⟨by decide, by decide, by decide⟩

/-- Witness for the amended C1 at the concrete not-ready `(c1, ns1)` over an
empty store. -/
theorem create_path_readiness_gating_witness :
    (tryCreateResources trivialEnv trivialCreator (.ok false) "rel" "istio-system"
        cdNotReady emptyStore).1 = .ok ()
    ∧ (tryCreateResources trivialEnv trivialCreator (.ok false) "rel" "istio-system"
        cdNotReady emptyStore).2.1.secrets = emptyStore.secrets
    ∧ certExists
        (tryCreateResources trivialEnv trivialCreator (.ok false) "rel" "istio-system"
          cdNotReady emptyStore).2.1
        "istio-system" (GetCertName "rel" cdNotReady.name cdNotReady.nspace) = true
    ∧ mcsExists
        (tryCreateResources trivialEnv trivialCreator (.ok false) "rel" "istio-system"
          cdNotReady emptyStore).2.1
        (GetMultiClusterServiceName cdNotReady.name cdNotReady.nspace) = true :=
  create_path_readiness_gating trivialEnv trivialCreator (.ok false) "rel" "istio-system"
    cdNotReady emptyStore (by decide)

/-- C2: when the intermediate-CA certificate is already absent but the
CA-propagation MultiClusterService still exists, `CertManager.TryDelete`
returns success immediately after the certificate delete reports not-found
and leaves the descriptor in the store — the early return skips the
descriptor delete, contradicting the documented contract that deletion
removes both while tolerating absence of either. -/
theorem cert_delete_skips_orphaned_descriptor :
    CertManagerTryDelete "rel" "istio-system" "c1" "ns1" stOrphanCaMCS
      = (.ok (), stOrphanCaMCS,
         [Op.deleteCertificate "istio-system" (GetCertName "rel" "c1" "ns1")])
    ∧ certExists stOrphanCaMCS "istio-system" (GetCertName "rel" "c1" "ns1") = false
    ∧ mcsExists stOrphanCaMCS (GetCertNameHash "rel" "c1" "ns1") = true
    ∧ mcsExists (CertManagerTryDelete "rel" "istio-system" "c1" "ns1" stOrphanCaMCS).2.1
        (GetCertNameHash "rel" "c1" "ns1") = true :=
  ⟨by rfl, by decide, by decide, by decide⟩

theorem rotate_fold (envOf : ClusterDeployment → RemoteSecretEnv)
    (creatorOf : ClusterDeployment → RemoteSecretCreator) (istioNs : String)
    (opt : CreateOptions) (l : List ClusterDeployment) :
    ∀ (st : Store) (acc : List (ClusterDeployment × CreateOptions)) (n : Nat),
      (l.foldl (rotateStep envOf creatorOf istioNs opt) (st, acc, n)).2.1
        = acc ++ l.map (fun cd => (cd, opt))
      ∧ n ≤ (l.foldl (rotateStep envOf creatorOf istioNs opt) (st, acc, n)).2.2
      ∧ (l.foldl (rotateStep envOf creatorOf istioNs opt) (st, acc, n)).2.2
          ≤ n + l.length := by
  induction l with
  | nil => intro st acc n; simp
  | cons a l ih =>
    intro st acc n
    rw [List.foldl_cons]
    have hs : rotateStep envOf creatorOf istioNs opt (st, acc, n) a
        = ((RemoteSecretManagerTryCreate (envOf a) (creatorOf a) istioNs a opt st).2.1,
           acc ++ [(a, opt)],
           n + (match (RemoteSecretManagerTryCreate (envOf a) (creatorOf a) istioNs a opt st).1
                with | .ok _ => 1 | .error _ => 0)) := rfl
    rw [hs]
    have hm : (match (RemoteSecretManagerTryCreate (envOf a) (creatorOf a) istioNs a opt st).1
        with | .ok _ => 1 | .error _ => 0) ≤ 1 := by
      cases (RemoteSecretManagerTryCreate (envOf a) (creatorOf a) istioNs a opt st).1 <;> simp
    obtain ⟨h1, h2, h3⟩ :=
      ih ((RemoteSecretManagerTryCreate (envOf a) (creatorOf a) istioNs a opt st).2.1)
        (acc ++ [(a, opt)])
        (n + (match (RemoteSecretManagerTryCreate (envOf a) (creatorOf a) istioNs a opt st).1
              with | .ok _ => 1 | .error _ => 0))
    refine ⟨?_, ?_, ?_⟩
    · rw [h1]
      simp
    · exact le_trans (Nat.le_add_right n _) h2
    · refine le_trans h3 ?_
      simp only [List.length_cons]
      omega

/-- C3 (amended): every rotation cycle enumerates exactly the
ClusterIdentities that CARRY the membership label — with any value,
accepted or not (the list is built from a label-existence selector, not from
`IstioRoleLabelExpectedValues`) — then invokes the credential builder with
the overwrite directive once per enumerated cluster, continuing past
individual failures, and, when the enumeration is non-empty, reports an
aggregate `(total, successful, failed)` count with `failed = total -
successful`; an empty enumeration ends the cycle early with no report. -/
theorem rotation_enumeration (envOf : ClusterDeployment → RemoteSecretEnv)
    (creatorOf : ClusterDeployment → RemoteSecretCreator) (istioNs : String)
    (clusters : List ClusterDeployment) (st : Store) :
    (∀ cd, cd ∈ getIstioClusters clusters ↔
        cd ∈ clusters ∧ (lookupLabel cd.labels IstioRoleLabel).isSome = true)
    ∧ (rotateSecrets envOf creatorOf istioNs clusters st).2.1
        = (getIstioClusters clusters).map (fun cd => (cd, ⟨true⟩))
    ∧ (getIstioClusters clusters = [] →
        (rotateSecrets envOf creatorOf istioNs clusters st).2.2 = none)
    ∧ (getIstioClusters clusters ≠ [] → ∃ s,
        s ≤ (getIstioClusters clusters).length ∧
        (rotateSecrets envOf creatorOf istioNs clusters st).2.2
          = some ((getIstioClusters clusters).length, s,
                  (getIstioClusters clusters).length - s)) := by
  have hne : (getIstioClusters clusters).isEmpty = false →
      rotateSecrets envOf creatorOf istioNs clusters st
        = (((getIstioClusters clusters).foldl
              (rotateStep envOf creatorOf istioNs ⟨true⟩) (st, [], 0)).1,
           ((getIstioClusters clusters).foldl
              (rotateStep envOf creatorOf istioNs ⟨true⟩) (st, [], 0)).2.1,
           some ((getIstioClusters clusters).length,
                 ((getIstioClusters clusters).foldl
                    (rotateStep envOf creatorOf istioNs ⟨true⟩) (st, [], 0)).2.2,
                 (getIstioClusters clusters).length -
                   ((getIstioClusters clusters).foldl
                      (rotateStep envOf creatorOf istioNs ⟨true⟩) (st, [], 0)).2.2)) := by
    intro hE
    unfold rotateSecrets
    simp only [hE, Bool.false_eq_true, if_false]
  have hemp : getIstioClusters clusters = [] →
      rotateSecrets envOf creatorOf istioNs clusters st = (st, [], none) := by
    intro hE
    unfold rotateSecrets
    simp [hE]
  refine ⟨fun cd => ?_, ?_, ?_, ?_⟩
  · simp [getIstioClusters, List.mem_filter]
  · cases hE : (getIstioClusters clusters).isEmpty
    · rw [hne hE]
      obtain ⟨h1, _, _⟩ :=
        rotate_fold envOf creatorOf istioNs ⟨true⟩ (getIstioClusters clusters) st [] 0
      simpa using h1
    · rw [List.isEmpty_iff] at hE
      rw [hemp hE, hE]
      rfl
  · intro he
    rw [hemp he]
  · intro he
    rw [hne (by simpa [List.isEmpty_iff] using he)]
    obtain ⟨_, _, h3⟩ :=
      rotate_fold envOf creatorOf istioNs ⟨true⟩ (getIstioClusters clusters) st [] 0
    exact ⟨_, by simpa using h3, rfl⟩

/-- C3 counterexample: a ClusterDeployment whose membership label carries the
unaccepted value `banana` is nevertheless enumerated by the rotation cycle
and handed to the credential builder with the overwrite directive — the
claim that only accepted label values are enumerated is false. -/
theorem rotation_includes_unaccepted_label :
    getIstioClusters [cdUnexpectedRole] = [cdUnexpectedRole]
    ∧ IstioRoleLabelExpectedValues.contains "banana" = false
    ∧ lookupLabel cdUnexpectedRole.labels IstioRoleLabel = some "banana"
    ∧ (rotateSecrets (fun _ => trivialEnv) (fun _ => trivialCreator) "istio-system"
        [cdUnexpectedRole] emptyStore).2.1 = [(cdUnexpectedRole, ⟨true⟩)] :=
  ⟨by decide, by decide, by decide, by rfl⟩

/-- Witness for the amended C3 at a concrete one-cluster fleet. -/
theorem rotation_enumeration_witness :
    (rotateSecrets (fun _ => trivialEnv) (fun _ => trivialCreator) "istio-system"
        [cdReady] emptyStore).2.1
      = (getIstioClusters [cdReady]).map (fun cd => (cd, ⟨true⟩))
    ∧ ∃ s, s ≤ (getIstioClusters [cdReady]).length ∧
        (rotateSecrets (fun _ => trivialEnv) (fun _ => trivialCreator) "istio-system"
          [cdReady] emptyStore).2.2
          = some ((getIstioClusters [cdReady]).length, s,
                  (getIstioClusters [cdReady]).length - s) :=
  ⟨(rotation_enumeration (fun _ => trivialEnv) (fun _ => trivialCreator) "istio-system"
      [cdReady] emptyStore).2.1,
   (rotation_enumeration (fun _ => trivialEnv) (fun _ => trivialCreator) "istio-system"
      [cdReady] emptyStore).2.2.2 (by decide)⟩

theorem backoffRetryAux_bound {α : Type} (op : Nat → Except String α) (interval : Nat) :
    ∀ (remaining i : Nat) (sleeps : List Nat),
      (backoffRetryAux op interval remaining i sleeps).2.1 ≤ i + remaining + 1
      ∧ (backoffRetryAux op interval remaining i sleeps).2.2.length
          ≤ sleeps.length + remaining
      ∧ (∀ d ∈ (backoffRetryAux op interval remaining i sleeps).2.2,
          d ∈ sleeps ∨ d = interval)
      ∧ ((∀ j, ∃ e, op j = .error e) →
          ∃ e, (backoffRetryAux op interval remaining i sleeps).1 = .error e) := by
  intro remaining
  induction remaining with
  | zero =>
    intro i sleeps
    unfold backoffRetryAux
    cases hop : op i with
    | error e =>
      dsimp only
      exact ⟨by omega, by omega, fun d hd => Or.inl hd, fun _ => ⟨e, rfl⟩⟩
    | ok a =>
      dsimp only
      refine ⟨by omega, by omega, fun d hd => Or.inl hd, fun hall => ?_⟩
      obtain ⟨e, he⟩ := hall i
      rw [hop] at he
      exact absurd he (by simp)
  | succ r ih =>
    intro i sleeps
    unfold backoffRetryAux
    cases hop : op i with
    | ok a =>
      dsimp only
      refine ⟨by omega, by omega, fun d hd => Or.inl hd, fun hall => ?_⟩
      obtain ⟨e, he⟩ := hall i
      rw [hop] at he
      exact absurd he (by simp)
    | error e =>
      dsimp only
      obtain ⟨b1, b2, b3, b4⟩ := ih (i + 1) (sleeps ++ [interval])
      refine ⟨by omega, ?_, fun d hd => ?_, b4⟩
      · simp only [List.length_append, List.length_cons, List.length_nil] at b2
        omega
      · rcases b3 d hd with h | h
        · rcases List.mem_append.mp h with h2 | h2
          · exact Or.inl h2
          · exact Or.inr (List.mem_singleton.mp h2)
        · exact Or.inr h

/-- C8 (amended): when the token data is missing, `waitForTokenData`
re-reads the secret at most 6 times (one immediate re-read plus up to 5
backoff retries), every sleep between re-reads is exactly the fixed
1-second `tokenWaitBackoff` interval (at most 5 sleeps), the wait is a no-op
when the in-hand secret already has the data, and when the contents never
materialise the bounded loop ends with an error. -/
theorem token_wait_bounded (fetch : Nat → Except String TokenSecret)
    (secret : TokenSecret) :
    (waitForTokenData fetch secret).2.1 ≤ 6
    ∧ (waitForTokenData fetch secret).2.2.length ≤ 5
    ∧ (∀ d ∈ (waitForTokenData fetch secret).2.2, d = tokenWaitBackoff)
    ∧ (∀ d, tokenDataFromSecret secret = .ok d →
        waitForTokenData fetch secret = (.ok d, 0, []))
    ∧ ((∀ j, ∃ e, (fetch j).bind tokenDataFromSecret = .error e) →
        (∃ e0, tokenDataFromSecret secret = .error e0) →
        ∃ e, (waitForTokenData fetch secret).1 = .error e) := by
  unfold waitForTokenData
  cases hts : tokenDataFromSecret secret with
  | ok d =>
    dsimp only
    refine ⟨by omega, by simp, by simp, fun d2 h2 => ?_, fun _ hmiss => ?_⟩
    · cases h2
      rfl
    · obtain ⟨e0, he0⟩ := hmiss
      exact absurd he0 (by simp)
  | error e0 =>
    dsimp only
    unfold backoffRetry
    obtain ⟨b1, b2, b3, b4⟩ :=
      backoffRetryAux_bound (fun i => (fetch i).bind tokenDataFromSecret)
        tokenWaitBackoff 5 0 []
    refine ⟨by omega, by simpa using b2, fun d hd => ?_, fun d2 h2 => ?_, fun hall _ => b4 hall⟩
    · rcases b3 d hd with h | h
      · exact absurd h (List.not_mem_nil d)
      · exact h
    · exact absurd h2 (by simp)

/-- C8 counterexample: when the token data never materialises, the wait loop
issues 6 re-reads, not 5 — the claim's cap of 5 re-read attempts is
exceeded, though the loop still terminates with the error after the 5
fixed-interval retries. -/
theorem token_wait_six_rereads :
    (waitForTokenData (fun _ => .ok emptyTokenSecret) emptyTokenSecret).2.1 = 6
    ∧ ¬ ((waitForTokenData (fun _ => .ok emptyTokenSecret) emptyTokenSecret).2.1 ≤ 5)
    ∧ (waitForTokenData (fun _ => .ok emptyTokenSecret) emptyTokenSecret).1
        = .error "no ca.crt data found"
    ∧ (waitForTokenData (fun _ => .ok emptyTokenSecret) emptyTokenSecret).2.2
        = [1, 1, 1, 1, 1] :=
  ⟨by rfl, by decide, by rfl, by rfl⟩

/-- Witness for the amended C8: concrete bound, no-op on a populated secret,
and error when the data never appears. -/
theorem token_wait_bounded_witness :
    (waitForTokenData (fun _ => .ok emptyTokenSecret) fullTokenSecret).2.1 ≤ 6
    ∧ waitForTokenData (fun _ => .ok emptyTokenSecret) fullTokenSecret
        = (.ok ("CA", "TOK"), 0, [])
    ∧ (∃ e, (waitForTokenData (fun _ => .ok emptyTokenSecret) emptyTokenSecret).1
        = .error e) :=
  ⟨(token_wait_bounded (fun _ => .ok emptyTokenSecret) fullTokenSecret).1,
   (token_wait_bounded (fun _ => .ok emptyTokenSecret) fullTokenSecret).2.2.2.1
     ("CA", "TOK") (by rfl),
   (token_wait_bounded (fun _ => .ok emptyTokenSecret) emptyTokenSecret).2.2.2.2
     (fun j => ⟨"no ca.crt data found", rfl⟩) ⟨"no ca.crt data found", rfl⟩⟩

/-- C9: on the legacy token-acquisition path, assuming the backing reads
succeed, an empty token-secret list is an error; with no explicit secret
name, more than one candidate is an error and a single candidate is read
and returned; with an explicit secret name, the call errors exactly when no
listed secret matches that name, and otherwise reads and returns the named
secret. -/
theorem legacy_token_path (fetch : String → String → Except String TokenSecret)
    (sa : ServiceAccount) (optSecretName optNamespace : String)
    (hfetch : ∀ ns n, ∃ v, fetch ns n = .ok v) :
    (sa.secrets = [] → ∃ e,
        legacyGetServiceAccountSecret fetch sa optSecretName optNamespace = .error e)
    ∧ (optSecretName = "" → 1 < sa.secrets.length → ∃ e,
        legacyGetServiceAccountSecret fetch sa optSecretName optNamespace = .error e)
    ∧ (optSecretName = "" → ∀ s, sa.secrets = [s] →
        legacyGetServiceAccountSecret fetch sa optSecretName optNamespace
          = fetch (if s.nspace = "" then optNamespace else s.nspace) s.name)
    ∧ (optSecretName ≠ "" →
        ((∃ e, legacyGetServiceAccountSecret fetch sa optSecretName optNamespace
            = .error e)
          ↔ sa.secrets.find? (fun s => s.name = optSecretName) = none))
    ∧ (optSecretName ≠ "" → ∀ s,
        sa.secrets.find? (fun s2 => s2.name = optSecretName) = some s →
        legacyGetServiceAccountSecret fetch sa optSecretName optNamespace
          = fetch (if s.nspace = "" then optNamespace else s.nspace) s.name) := by
  unfold legacyGetServiceAccountSecret
  cases hsec : sa.secrets with
  | nil =>
    refine ⟨fun _ => ⟨_, rfl⟩, fun _ _ => ⟨_, rfl⟩, fun _ s hs => ?_, fun hne => ?_,
      fun hne s hf => ?_⟩
    · exact absurd hs (by simp)
    · exact iff_of_true ⟨_, rfl⟩ rfl
    · simp at hf
  | cons first rest =>
    dsimp only
    refine ⟨fun h => ?_, fun h1 h2 => ?_, fun h1 s hs => ?_, fun hne => ?_,
      fun hne s hf => ?_⟩
    · exact absurd h (by simp)
    · subst h1
      rw [if_neg (by simp)]
      cases rest with
      | nil => simp at h2
      | cons b bs => exact ⟨_, rfl⟩
    · subst h1
      rw [if_neg (by simp)]
      injection hs with hs1 hs2
      subst hs1
      subst hs2
      rfl
    · rw [if_pos hne]
      cases hf : (first :: rest).find? (fun s => s.name = optSecretName) with
      | none => exact iff_of_true ⟨_, rfl⟩ rfl
      | some s =>
        constructor
        · rintro ⟨e, he⟩
          dsimp only at he
          obtain ⟨v, hv⟩ := hfetch (if s.nspace = "" then optNamespace else s.nspace) s.name
          rw [hv] at he
          cases he
        · intro h0
          cases h0
    · rw [if_pos hne, hf]

/-- Witness for C9: a service account with one listed secret and no explicit
name resolves to reading that secret. -/
theorem legacy_token_path_witness :
    legacyGetServiceAccountSecret fetchOk saSingle "" "istio-system"
      = fetchOk "istio-system" "tok-secret" :=
  (legacy_token_path fetchOk saSingle "" "istio-system"
    (fun ns n => ⟨⟨n, ns, []⟩, rfl⟩)).2.2.1 rfl ⟨"tok-secret", ""⟩ rfl

end K0rdentIstio
